import Mathlib

/-!
Verification of the Droneplus links/activities service.

The repository contains four near-duplicate variants of the same service:
* `src/server.js` (first document): simple local-file variant, activity cap 10,
  synchronous `readData`/`writeData` returning a Bool.
* `src/server.js` (second document, "render" variant): local-file variant with an
  `isWriting` lock flag, a retrying `writeData` (3 retries, 100 ms backoff) and a
  `readData` that returns the empty snapshot while a write is in progress.
* `src/unnamed/part_000` ("gist" variant): GitHub-Gist backed, in-memory
  `dataCache`, `syncInProgress` skip-flag in `updateGist`, activity cap 50.
* `src/unnamed/part_001` ("firestore" variant): Firestore backed, separate
  `links` and `activities` collections written by independent calls.

Nondeterministic inputs of the JavaScript code (generated ids, timestamps,
success or failure of backend I/O) are passed to the Lean functions as explicit
parameters; everything else is translated directly from the handlers.
-/

namespace Droneplus

/-- The `type` field of an activity record: `'added' | 'edited' | 'deleted' | 'clicked'`. -/
inductive ActivityType where
  | added
  | edited
  | deleted
  | clicked
deriving DecidableEq

/-- A link record. Fields as built by the handlers: `id`, `name`, `url`,
`description`, `category`, `clicks`, `createdAt`, plus `updatedAt` (set only by
PUT) and `permanent` (set only by the gist variant, absent i.e. `false` elsewhere).
Timestamps are modelled as `Nat`. -/
structure Link where
  id : String
  name : String
  url : String
  description : String
  category : String
  clicks : Nat
  createdAt : Nat
  updatedAt : Option Nat := none
  permanent : Bool := false
deriving DecidableEq

/-- An activity record: `id`, `type`, `linkName`, `timestamp`. -/
structure Activity where
  id : String
  type : ActivityType
  linkName : String
  timestamp : Nat
deriving DecidableEq

/-- The persisted document: `links` plus `activities` arrays (newest first). -/
structure Snapshot where
  links : List Link
  activities : List Activity
deriving DecidableEq

/-- The initial/substitute state `\x7b links: [], activities: [] \x7d`. -/
def emptySnapshot : Snapshot := { links := [], activities := [] }

/-- The request body of POST and PUT: `name`, `url`, `description`, `category`. -/
structure LinkFields where
  name : String
  url : String
  description : String
  category : String
deriving DecidableEq

/-- Outcome of a handler: a JSON reply, a 404, or a 500. -/
inductive ApiResponse (α : Type) where
  | ok : α → ApiResponse α
  | notFound : ApiResponse α
  | serverError : ApiResponse α
deriving DecidableEq

/-- The new link object built by POST `/api/links` (file variants):
generated id, request fields, `clicks: 0`, `createdAt: now`. -/
def mkNewLink (newId : String) (now : Nat) (f : LinkFields) : Link :=
  { id := newId, name := f.name, url := f.url, description := f.description,
    category := f.category, clicks := 0, createdAt := now }

/-- An activity object as pushed by the handlers. -/
def mkActivity (actId : String) (t : ActivityType) (nm : String) (now : Nat) : Activity :=
  { id := actId, type := t, linkName := nm, timestamp := now }

/-- The retention step after every `activities.unshift`:
`if (data.activities.length > CAP) data.activities.pop()` — a single pop of the
last (oldest) element when the length exceeds the cap. -/
def capActivities (cap : Nat) (acts : List Activity) : List Activity :=
  if acts.length > cap then acts.dropLast else acts

/-- `findIndex` followed by an in-place replacement of the matching element:
returns the updated element together with the updated list, or `none` when no
element matches (the JS handlers answer 404 in that case). -/
def updateFirstBy {α : Type} (p : α → Bool) (g : α → α) : List α → Option (α × List α)
  | [] => none
  | x :: xs =>
    if p x then some (g x, g x :: xs)
    else
      match updateFirstBy p g xs with
      | none => none
      | some (r, xs') => some (r, x :: xs')

/-- `findIndex` followed by `splice(linkIndex, 1)`: returns the removed element
together with the remaining list, or `none` when no element matches. -/
def removeFirstBy {α : Type} (p : α → Bool) : List α → Option (α × List α)
  | [] => none
  | x :: xs =>
    if p x then some (x, xs)
    else
      match removeFirstBy p xs with
      | none => none
      | some (r, xs') => some (r, x :: xs')

/-- GET `/api/links`: returns the `links` array as stored. -/
def getLinks (s : Snapshot) : List Link := s.links

/-- GET `/api/activities`: returns the `activities` array as stored. -/
def getActivities (s : Snapshot) : List Activity := s.activities

/-- POST `/api/links` (file variants). `saveOk` is the outcome of `writeData`.
Returns the HTTP response and the persisted snapshot after the call: on a
successful write the transformed snapshot, on a failed write the file is
untouched so the old snapshot remains. -/
def postLinks (cap : Nat) (newId actId : String) (now : Nat) (f : LinkFields)
    (saveOk : Bool) (s : Snapshot) : ApiResponse Link × Snapshot :=
  let newLink := mkNewLink newId now f
  let s₁ : Snapshot :=
    { links := newLink :: s.links,
      activities := capActivities cap (mkActivity actId ActivityType.added f.name now :: s.activities) }
  if saveOk then (ApiResponse.ok newLink, s₁) else (ApiResponse.serverError, s)

/-- The field update performed by PUT `/api/links/:id`: spread of the old link
with the request fields and a fresh `updatedAt`. -/
def editLink (now : Nat) (f : LinkFields) (l : Link) : Link :=
  { l with name := f.name, url := f.url, description := f.description,
           category := f.category, updatedAt := some now }

/-- PUT `/api/links/:id` (file variants): 404 when the id is absent, otherwise
update in place, push an `edited` activity, cap, and write. -/
def putLink (cap : Nat) (lid actId : String) (now : Nat) (f : LinkFields)
    (saveOk : Bool) (s : Snapshot) : ApiResponse Link × Snapshot :=
  match updateFirstBy (fun l => l.id == lid) (editLink now f) s.links with
  | none => (ApiResponse.notFound, s)
  | some (updated, links') =>
    let s₁ : Snapshot :=
      { links := links',
        activities := capActivities cap (mkActivity actId ActivityType.edited f.name now :: s.activities) }
    if saveOk then (ApiResponse.ok updated, s₁) else (ApiResponse.serverError, s)

/-- DELETE `/api/links/:id` (file variants): 404 when the id is absent, otherwise
splice the link out, push a `deleted` activity carrying its name, cap, and write. -/
def deleteLink (cap : Nat) (lid actId : String) (now : Nat)
    (saveOk : Bool) (s : Snapshot) : ApiResponse Bool × Snapshot :=
  match removeFirstBy (fun l => l.id == lid) s.links with
  | none => (ApiResponse.notFound, s)
  | some (removed, links') =>
    let s₁ : Snapshot :=
      { links := links',
        activities := capActivities cap (mkActivity actId ActivityType.deleted removed.name now :: s.activities) }
    if saveOk then (ApiResponse.ok true, s₁) else (ApiResponse.serverError, s)

/-- POST `/api/links/:id/click` (file variants): 404 when the id is absent,
otherwise increment `clicks`, push a `clicked` activity carrying the link's
name, cap, write, and answer with the new click count. -/
def clickLink (cap : Nat) (lid actId : String) (now : Nat)
    (saveOk : Bool) (s : Snapshot) : ApiResponse Nat × Snapshot :=
  match updateFirstBy (fun l => l.id == lid) (fun l => { l with clicks := l.clicks + 1 }) s.links with
  | none => (ApiResponse.notFound, s)
  | some (updated, links') =>
    let s₁ : Snapshot :=
      { links := links',
        activities := capActivities cap (mkActivity actId ActivityType.clicked updated.name now :: s.activities) }
    if saveOk then (ApiResponse.ok updated.clicks, s₁) else (ApiResponse.serverError, s)

/-- `readData` of the simple file variant: `JSON.parse` of the file, and on any
thrown error (unreadable file or malformed content, `parsed = none`) the catch
block returns the empty snapshot. -/
def readDataSimple (parsed : Option Snapshot) : Snapshot :=
  match parsed with
  | some s => s
  | none => emptySnapshot

/-- `readData` of the render variant: when the `isWriting` flag is set the
function schedules a timer retry whose return value is discarded and
immediately returns the empty snapshot, ignoring the file; otherwise it parses
the file, and on any thrown error (again with a discarded timer retry) the
catch block returns the empty snapshot. -/
def readDataRender (isWr : Bool) (contents : Option Snapshot) : Snapshot :=
  if isWr then emptySnapshot
  else
    match contents with
    | some s => s
    | none => emptySnapshot

/-- One run of the render variant `writeData` retry loop with the write lock
free. `fails k` says whether the k-th `fs.writeFileSync` call throws. Returns
whether the promise resolved, the total number of write attempts made, and the
list of `setTimeout` backoff delays (ms) inserted between consecutive attempts:
an attempt that throws with `retries > 0` schedules the next attempt after
100 ms with `retries - 1`; with `retries` exhausted the promise rejects. -/
def writeDataRun (fails : Nat → Bool) : Nat → Nat → Bool × Nat × List Nat
  | 0, k => if fails k then (false, 1, []) else (true, 1, [])
  | r + 1, k =>
    if fails k then
      ((writeDataRun fails r (k + 1)).1,
       (writeDataRun fails r (k + 1)).2.1 + 1,
       100 :: (writeDataRun fails r (k + 1)).2.2)
    else (true, 1, [])

/-- POST `/api/links` of the render variant: reads via `readDataRender`,
builds the new snapshot, and `await`s `writeData` (3 retries). A rejected
write is caught and answered with a 500; the file then still holds its old
contents, so the second component is the file contents after the call. -/
def renderPostLinks (newId actId : String) (now : Nat) (f : LinkFields)
    (isWr : Bool) (contents : Option Snapshot) (fails : Nat → Bool) :
    ApiResponse Link × Option Snapshot :=
  let data := readDataRender isWr contents
  let newLink := mkNewLink newId now f
  let s₁ : Snapshot :=
    { links := newLink :: data.links,
      activities := capActivities 10 (mkActivity actId ActivityType.added f.name now :: data.activities) }
  if (writeDataRun fails 3 0).1 then (ApiResponse.ok newLink, some s₁)
  else (ApiResponse.serverError, contents)

/-- State of the gist variant: the module-level `dataCache` and the content of
the remote gist (`links.json`). -/
structure GistState where
  cache : Snapshot
  persisted : Snapshot
deriving DecidableEq

/-- `fetchGist`: on success the parsed gist content is assigned to `dataCache`
and returned (the returned object and the cache are one and the same JS
object); on any failure of the try block (missing token, HTTP error, or
`JSON.parse` throwing on malformed content) the catch block returns `dataCache`
itself unchanged. -/
def fetchGist (fetchOk : Bool) (st : GistState) : Snapshot × GistState :=
  if fetchOk then (st.persisted, { st with cache := st.persisted })
  else (st.cache, st)

/-- `updateGist`: when `syncInProgress` is already set the call is skipped and
returns `false` without touching the gist; otherwise it PATCHes the gist and on
success stores the document in `dataCache`, on network failure returns `false`. -/
def updateGist (syncBusy : Bool) (netOk : Bool) (d : Snapshot) (st : GistState) :
    Bool × GistState :=
  if syncBusy then (false, st)
  else if netOk then (true, { cache := d, persisted := d })
  else (false, st)

/-- POST `/api/links` of the gist variant. The handler mutates the object
returned by `fetchGist` in place (`data.links.unshift`, `data.activities.unshift`,
`pop`); that object is the very object stored in `dataCache` — on fetch success
because `fetchGist` assigns the parsed document to `dataCache` before returning
it, on fetch failure because `fetchGist` returns `dataCache` itself — so the
cache holds the mutated snapshot from that point on, independently of the
outcome of `updateGist`. New links additionally carry `permanent: true`, and the
cap is 50. -/
def gistPostLinks (newId actId : String) (now : Nat) (f : LinkFields)
    (fetchOk syncBusy netOk : Bool) (st : GistState) : ApiResponse Link × GistState :=
  let fr := fetchGist fetchOk st
  let newLink : Link := { mkNewLink newId now f with permanent := true }
  let s₁ : Snapshot :=
    { links := newLink :: fr.1.links,
      activities := capActivities 50 (mkActivity actId ActivityType.added f.name now :: fr.1.activities) }
  let st₁ : GistState := { fr.2 with cache := s₁ }
  let ur := updateGist syncBusy netOk s₁ st₁
  if ur.1 then (ApiResponse.ok newLink, ur.2) else (ApiResponse.serverError, ur.2)

/-- Data of one document of the firestore `links` collection. -/
structure FsLinkData where
  name : String
  url : String
  description : String
  category : String
  clicks : Nat
  createdAt : Nat
  updatedAt : Nat
deriving DecidableEq

/-- One document of the firestore `activities` collection. -/
structure FsActivity where
  type : ActivityType
  linkName : String
  linkId : String
  timestamp : Nat
deriving DecidableEq

/-- State of the firestore variant: the `links` collection (document id paired
with document data) and the `activities` collection. -/
structure FsState where
  links : List (String × FsLinkData)
  activities : List FsActivity
deriving DecidableEq

/-- POST `/api/links` of the firestore variant: two independent writes, first
`links.add`, then `activities.add`. `linkWriteOk` and `actWriteOk` inject
backend failure into each write; a throw is caught and answered with a 500.
When the second write fails the link document has already been committed. -/
def fsPostLinks (newLinkId : String) (now : Nat) (f : LinkFields)
    (linkWriteOk actWriteOk : Bool) (st : FsState) :
    ApiResponse (String × FsLinkData) × FsState :=
  let newLink : FsLinkData :=
    { name := f.name, url := f.url, description := f.description,
      category := f.category, clicks := 0, createdAt := now, updatedAt := now }
  if linkWriteOk then
    let st₁ : FsState := { st with links := st.links ++ [(newLinkId, newLink)] }
    if actWriteOk then
      (ApiResponse.ok (newLinkId, newLink),
       { st₁ with activities := st₁.activities ++ [⟨ActivityType.added, f.name, newLinkId, now⟩] })
    else (ApiResponse.serverError, st₁)
  else (ApiResponse.serverError, st)

/-- PUT `/api/links/:id` of the firestore variant: `links.doc(id).update(...)`
throws NOT_FOUND when the document is absent, which the catch block answers
with a 500 (not a 404); otherwise the document is merged and an `edited`
activity document is added separately. -/
def fsPutLink (lid : String) (now : Nat) (f : LinkFields) (st : FsState) :
    ApiResponse (String × FsLinkData) × FsState :=
  match updateFirstBy (fun q => q.1 == lid)
      (fun q => (q.1,
        { q.2 with
          name := f.name, url := f.url, description := f.description,
          category := f.category, updatedAt := now })) st.links with
  | none => (ApiResponse.serverError, st)
  | some (upd, links') =>
    (ApiResponse.ok upd,
     { links := links',
       activities := st.activities ++ [⟨ActivityType.edited, f.name, lid, now⟩] })

/-- DELETE `/api/links/:id` of the firestore variant: the handler first reads
the document and evaluates `linkDoc.data().name`; for an absent document
`data()` is `undefined`, so the property access throws and the catch block
answers with a 500 (not a 404) before anything is written. Otherwise the
document is deleted and a `deleted` activity document is added separately. -/
def fsDeleteLink (lid : String) (now : Nat) (st : FsState) :
    ApiResponse Bool × FsState :=
  match removeFirstBy (fun q => q.1 == lid) st.links with
  | none => (ApiResponse.serverError, st)
  | some (rem, links') =>
    (ApiResponse.ok true,
     { links := links',
       activities := st.activities ++ [⟨ActivityType.deleted, rem.2.name, lid, now⟩] })

/-- POST `/api/links/:id/click` of the firestore variant:
`update(clicks: increment(1))` throws NOT_FOUND for an absent document, caught
as a 500 (not a 404); otherwise the counter is incremented, the document is
re-read for the reply, and a `clicked` activity document is added separately. -/
def fsClickLink (lid : String) (now : Nat) (st : FsState) :
    ApiResponse Nat × FsState :=
  match updateFirstBy (fun q => q.1 == lid)
      (fun q => (q.1, { q.2 with clicks := q.2.clicks + 1 })) st.links with
  | none => (ApiResponse.serverError, st)
  | some (upd, links') =>
    (ApiResponse.ok upd.2.clicks,
     { links := links',
       activities := st.activities ++ [⟨ActivityType.clicked, upd.2.name, lid, now⟩] })

/-- Whether an activity record has type `clicked`. -/
def Activity.isClicked (a : Activity) : Bool := a.type == ActivityType.clicked

/-- The list (newest first) of the `clicked` activity records pushed by `n`
sequential clicks on a link named `nm`, with the k-th click drawing id
`ids k` and timestamp `tms k`. -/
def clickedActs (nm : String) (ids : Nat → String) (tms : Nat → Nat) : Nat → List Activity
  | 0 => []
  | n + 1 => mkActivity (ids n) ActivityType.clicked nm (tms n) :: clickedActs nm ids tms n

/-- `n` sequential calls of the click handler on id `lid`, every save
succeeding; the k-th call draws activity id `ids k` and timestamp `tms k`. -/
def clickN (cap : Nat) (lid : String) (ids : Nat → String) (tms : Nat → Nat) :
    Nat → Snapshot → Snapshot
  | 0, s => s
  | n + 1, s => (clickLink cap lid (ids n) (tms n) true (clickN cap lid ids tms n s)).2

/-- The POST body used in concrete scenarios. -/
def sampleFields : LinkFields :=
  { name := "Docs", url := "http://x", description := "", category := "ref" }

/-- A sample stored link, id `"L0"`. -/
def demoLink : Link :=
  { id := "L0", name := "Docs", url := "http://x", description := "",
    category := "ref", clicks := 0, createdAt := 0 }

/-- A snapshot already holding `demoLink`. -/
def demoSnapshot : Snapshot := { links := [demoLink], activities := [] }

/-! Helper lemmas -/

lemma updateFirstBy_eq_none {α : Type} (p : α → Bool) (g : α → α) :
    ∀ xs : List α, (∀ x ∈ xs, p x = false) → updateFirstBy p g xs = none := by
  intro xs
  induction xs with
  | nil => intro _; rfl
  | cons x xs ih =>
    intro h
    have hx : p x = false := h x (List.mem_cons_self x xs)
    have ht : updateFirstBy p g xs = none := ih fun y hy => h y (List.mem_cons_of_mem x hy)
    simp [updateFirstBy, hx, ht]

lemma removeFirstBy_eq_none {α : Type} (p : α → Bool) :
    ∀ xs : List α, (∀ x ∈ xs, p x = false) → removeFirstBy p xs = none := by
  intro xs
  induction xs with
  | nil => intro _; rfl
  | cons x xs ih =>
    intro h
    have hx : p x = false := h x (List.mem_cons_self x xs)
    have ht : removeFirstBy p xs = none := ih fun y hy => h y (List.mem_cons_of_mem x hy)
    simp [removeFirstBy, hx, ht]

lemma writeDataRun_bound (g : Nat → Bool) :
    ∀ r k, 1 ≤ (writeDataRun g r k).2.1 ∧ (writeDataRun g r k).2.1 ≤ r + 1 ∧
      ((writeDataRun g r k).2.2.all fun d => d == 100) = true ∧
      (writeDataRun g r k).2.2.length = (writeDataRun g r k).2.1 - 1 := by
  intro r
  induction r with
  | zero =>
    intro k
    by_cases h : g k = true <;> simp [writeDataRun, h]
  | succ r ih =>
    intro k
    by_cases h : g k = true
    · obtain ⟨h1, h2, h3, h4⟩ := ih (k + 1)
      refine ⟨?_, ?_, ?_, ?_⟩ <;> simp [writeDataRun, h, h3]
      · omega
      · omega
    · simp [writeDataRun, h]

lemma writeDataRun_allFail (g : Nat → Bool) (hall : ∀ k, g k = true) (k : Nat) :
    writeDataRun g 3 k = (false, 4, [100, 100, 100]) := by
  simp [writeDataRun, hall]

lemma length_capActivities_cons_le (cap : Nat) (a : Activity) (acts : List Activity)
    (h : acts.length ≤ cap) : (capActivities cap (a :: acts)).length ≤ cap := by
  unfold capActivities
  by_cases hl : (a :: acts).length > cap
  · rw [if_pos hl, List.length_dropLast]
    simp only [List.length_cons]
    omega
  · rw [if_neg hl]
    simp only [List.length_cons] at hl ⊢
    omega

lemma capActivities_cons_of_full (cap : Nat) (hcap : 0 < cap) (a : Activity)
    (acts : List Activity) (h : acts.length = cap) :
    capActivities cap (a :: acts) = a :: acts.dropLast := by
  unfold capActivities
  rw [if_pos (by simp [h])]
  cases acts with
  | nil => simp at h; omega
  | cons b bs => rfl

/-! Claim theorems -/

/-- C1: failing trace in the gist variant. With the save failing on its only
attempt (the gist variant performs no retries), the handler answers 500 and
the remote gist is untouched, but the in-memory cached snapshot has been
mutated in place — the handler pushes onto the arrays of the very object
stored in `dataCache` before the save — so the cache no longer equals its
pre-call value, contradicting the claim that the cache is unchanged after a
failed save. -/
theorem c1_cache_mutated_on_failed_save :
    (gistPostLinks "lnk1" "act1" 7 sampleFields true false false
        { cache := emptySnapshot, persisted := emptySnapshot }).1 = ApiResponse.serverError ∧
    (gistPostLinks "lnk1" "act1" 7 sampleFields true false false
        { cache := emptySnapshot, persisted := emptySnapshot }).2.persisted = emptySnapshot ∧
    (gistPostLinks "lnk1" "act1" 7 sampleFields true false false
        { cache := emptySnapshot, persisted := emptySnapshot }).2.cache ≠ emptySnapshot := by
  decide

/-- C2 (amended): the gist variant holds at most one save in flight, but not by
queueing — `updateGist` called while `syncInProgress` is set returns `false`
without saving, so the second mutate request is answered 500 and its mutation
never reaches the persisted snapshot. -/
theorem c2_skip_flag_rejects_second_mutate :
    ∀ (newId actId : String) (now : Nat) (f : LinkFields) (fetchOk netOk : Bool)
      (d : Snapshot) (st : GistState),
      updateGist true netOk d st = (false, st) ∧
      (gistPostLinks newId actId now f fetchOk true netOk st).1 = ApiResponse.serverError ∧
      (gistPostLinks newId actId now f fetchOk true netOk st).2.persisted = st.persisted := by
  intro newId actId now f fetchOk netOk d st
  refine ⟨rfl, ?_, ?_⟩ <;> cases fetchOk <;> simp [gistPostLinks, updateGist, fetchGist]

/-- C2 counterexample: a POST arriving while a save is in flight
(`syncInProgress` set) is rejected with an error, not queued or retried, and
the new link `"B"` does not appear in the final persisted snapshot — the
claimed no-lost-update guarantee fails. -/
theorem c2_second_mutate_dropped :
    (gistPostLinks "idB" "actB" 2 ⟨"B", "u", "", "c"⟩ true true true
        { cache := demoSnapshot, persisted := demoSnapshot }).1 = ApiResponse.serverError ∧
    ∀ l ∈ (gistPostLinks "idB" "actB" 2 ⟨"B", "u", "", "c"⟩ true true true
        { cache := demoSnapshot, persisted := demoSnapshot }).2.persisted.links,
      l.name ≠ "B" := by
  decide

/-- C6: when the write lock is free and backend saves fail, the render-variant
`writeData` makes at most 4 write attempts (an initial attempt plus at most 3
retries) with a fixed 100 ms delay between consecutive attempts; when every
attempt fails it makes exactly 4 attempts, the promise rejects, and the POST
handler surfaces a 500 to the caller instead of retrying forever. -/
theorem c6_bounded_retry (fails : Nat → Bool) (hall : ∀ k, fails k = true) :
    (∀ g : Nat → Bool, (writeDataRun g 3 0).2.1 ≤ 4 ∧
        ((writeDataRun g 3 0).2.2.all fun d => d == 100) = true) ∧
    writeDataRun fails 3 0 = (false, 4, [100, 100, 100]) ∧
    (∀ newId actId now f isWr contents,
      (renderPostLinks newId actId now f isWr contents fails).1 = ApiResponse.serverError) := by
  refine ⟨fun g => ⟨(writeDataRun_bound g 3 0).2.1, (writeDataRun_bound g 3 0).2.2.1⟩,
    writeDataRun_allFail fails hall 0, ?_⟩
  intro newId actId now f isWr contents
  simp [renderPostLinks, writeDataRun_allFail fails hall 0]

/-- C6 witness: instantiated with every attempt failing. -/
theorem c6_bounded_retry_witness :
    (∀ k : Nat, (fun _ : Nat => true) k = true) ∧
    writeDataRun (fun _ : Nat => true) 3 0 = (false, 4, [100, 100, 100]) :=
  ⟨fun _ => rfl, (c6_bounded_retry (fun _ => true) (fun _ => rfl)).2.1⟩

/-- C7 (amended): on malformed persisted content the simple and render file
variants substitute the empty snapshot; the gist variant's `fetchGist` instead
returns the last cached snapshot unchanged. In every variant the parse error is
caught inside the load function, never fatal. -/
theorem c7_malformed_load_substitution :
    ∀ st : GistState,
      readDataSimple none = emptySnapshot ∧
      readDataRender false none = emptySnapshot ∧
      fetchGist false st = (st.cache, st) :=
  fun _ => ⟨rfl, rfl, rfl⟩

/-- C7 counterexample: with a non-empty cache, a gist load that fails to parse
returns the cached snapshot, not the empty snapshot the claim prescribes. -/
theorem c7_gist_returns_cache_not_empty :
    (fetchGist false { cache := demoSnapshot, persisted := emptySnapshot }).1 ≠ emptySnapshot := by
  decide

/-- C10: in the render variant, `readData` called while `isWriting` is set
returns the empty snapshot whatever the file holds, and likewise when the read
throws (the timer-scheduled retry's value is discarded); consequently a POST
handled at such a moment builds its new state from the empty snapshot — the
persisted result contains only the new link and its activity, regardless of
the file's actual contents. -/
theorem c10_read_while_writing_is_empty :
    ∀ (contents : Option Snapshot) (newId actId : String) (now : Nat) (f : LinkFields),
      readDataRender true contents = emptySnapshot ∧
      readDataRender false none = emptySnapshot ∧
      (renderPostLinks newId actId now f true contents (fun _ => false)).2 =
        some { links := [mkNewLink newId now f],
               activities := [mkActivity actId ActivityType.added f.name now] } := by
  intro contents newId actId now f
  refine ⟨rfl, rfl, ?_⟩
  simp [renderPostLinks, readDataRender, writeDataRun, capActivities, emptySnapshot]

/-- C3 (amended): the retention step pops exactly one element, so the bound
needs the snapshot to start within the cap: when the pre-mutation activities
array has length at most the cap (true of every snapshot the service itself
builds from the initial empty state), each of the four mutations leaves the
length at most the cap, and whenever the cap forces an eviction the evicted
element is the tail of the array — the oldest activity. -/
theorem c3_retention_within_cap (cap : Nat) (s : Snapshot)
    (hcap : 0 < cap) (h : s.activities.length ≤ cap) :
    (∀ a, (capActivities cap (a :: s.activities)).length ≤ cap) ∧
    (∀ a, s.activities.length = cap →
      capActivities cap (a :: s.activities) = a :: s.activities.dropLast) ∧
    (∀ newId actId now f, ((postLinks cap newId actId now f true s).2).activities.length ≤ cap) ∧
    (∀ lid actId now f, ((putLink cap lid actId now f true s).2).activities.length ≤ cap) ∧
    (∀ lid actId now, ((deleteLink cap lid actId now true s).2).activities.length ≤ cap) ∧
    (∀ lid actId now, ((clickLink cap lid actId now true s).2).activities.length ≤ cap) := by
  refine ⟨fun a => length_capActivities_cons_le cap a s.activities h,
    fun a ha => capActivities_cons_of_full cap hcap a s.activities ha, ?_, ?_, ?_, ?_⟩
  · intro newId actId now f
    exact length_capActivities_cons_le cap _ s.activities h
  · intro lid actId now f
    cases hu : updateFirstBy (fun l => l.id == lid) (editLink now f) s.links with
    | none => simpa [putLink, hu] using h
    | some r =>
      simp only [putLink, hu, if_pos]
      exact length_capActivities_cons_le cap _ s.activities h
  · intro lid actId now
    cases hu : removeFirstBy (fun l => l.id == lid) s.links with
    | none => simpa [deleteLink, hu] using h
    | some r =>
      simp only [deleteLink, hu, if_pos]
      exact length_capActivities_cons_le cap _ s.activities h
  · intro lid actId now
    cases hu : updateFirstBy (fun l => l.id == lid) (fun l => { l with clicks := l.clicks + 1 }) s.links with
    | none => simpa [clickLink, hu] using h
    | some r =>
      simp only [clickLink, hu, if_pos]
      exact length_capActivities_cons_le cap _ s.activities h

/-- C3 witness: the amended retention statement at cap 10 on the empty snapshot. -/
theorem c3_retention_within_cap_witness :
    0 < 10 ∧ emptySnapshot.activities.length ≤ 10 ∧
    ((∀ a, (capActivities 10 (a :: emptySnapshot.activities)).length ≤ 10) ∧
     (∀ a, emptySnapshot.activities.length = 10 →
       capActivities 10 (a :: emptySnapshot.activities) = a :: emptySnapshot.activities.dropLast) ∧
     (∀ newId actId now f, ((postLinks 10 newId actId now f true emptySnapshot).2).activities.length ≤ 10) ∧
     (∀ lid actId now f, ((putLink 10 lid actId now f true emptySnapshot).2).activities.length ≤ 10) ∧
     (∀ lid actId now, ((deleteLink 10 lid actId now true emptySnapshot).2).activities.length ≤ 10) ∧
     (∀ lid actId now, ((clickLink 10 lid actId now true emptySnapshot).2).activities.length ≤ 10)) :=
  ⟨by decide, by decide, c3_retention_within_cap 10 emptySnapshot (by decide) (by decide)⟩

/-- C3 counterexample: a snapshot whose activities array already exceeds the
cap — reachable through the render variant's unvalidated POST `/api/restore`
endpoint or an externally edited data file/gist — still exceeds the cap after
a successful mutation, because the retention step pops only one element. -/
theorem c3_oversized_stays_oversized :
    ¬ ((postLinks 10 "L" "A" 0 sampleFields true
        { links := [],
          activities := List.replicate 11 (mkActivity "a" ActivityType.added "n" 0) }).2.activities.length ≤ 10) := by
  decide

/-- C4 (amended): a PUT, DELETE or click on an id absent from the state never
mutates the state in any variant; the file-backed variants (the gist variant
runs the same findIndex logic) answer 404, while the firestore variant answers
500 — the backend's not-found throw (or the throw on reading `name` of an
undefined document) lands in the generic catch block. -/
theorem c4_absent_id_no_mutation (cap : Nat) (lid actId : String) (now : Nat)
    (f : LinkFields) (saveOk : Bool) (s : Snapshot) (st : FsState)
    (habs : ∀ l ∈ s.links, l.id ≠ lid) (hfs : ∀ q ∈ st.links, q.1 ≠ lid) :
    putLink cap lid actId now f saveOk s = (ApiResponse.notFound, s) ∧
    deleteLink cap lid actId now saveOk s = (ApiResponse.notFound, s) ∧
    clickLink cap lid actId now saveOk s = (ApiResponse.notFound, s) ∧
    fsPutLink lid now f st = (ApiResponse.serverError, st) ∧
    fsDeleteLink lid now st = (ApiResponse.serverError, st) ∧
    fsClickLink lid now st = (ApiResponse.serverError, st) := by
  have h1 : ∀ l ∈ s.links, (l.id == lid) = false :=
    fun l hl => beq_eq_false_iff_ne.mpr (habs l hl)
  have h2 : ∀ q ∈ st.links, (q.1 == lid) = false :=
    fun q hq => beq_eq_false_iff_ne.mpr (hfs q hq)
  refine ⟨?_, ?_, ?_, ?_, ?_, ?_⟩
  · simp [putLink, updateFirstBy_eq_none _ _ s.links h1]
  · simp [deleteLink, removeFirstBy_eq_none _ s.links h1]
  · simp [clickLink, updateFirstBy_eq_none _ _ s.links h1]
  · simp [fsPutLink, updateFirstBy_eq_none _ _ st.links h2]
  · simp [fsDeleteLink, removeFirstBy_eq_none _ st.links h2]
  · simp [fsClickLink, updateFirstBy_eq_none _ _ st.links h2]

/-- A firestore state already holding one link document, id `"F0"`. -/
def fsDemo : FsState :=
  { links := [("F0",
      { name := "Docs", url := "http://x", description := "", category := "ref",
        clicks := 0, createdAt := 0, updatedAt := 0 })],
    activities := [] }

/-- C4 witness: the amended statement at id `"zzz"`, absent from both states. -/
theorem c4_absent_id_no_mutation_witness :
    (∀ l ∈ demoSnapshot.links, l.id ≠ "zzz") ∧ (∀ q ∈ fsDemo.links, q.1 ≠ "zzz") ∧
    (putLink 10 "zzz" "a1" 3 sampleFields true demoSnapshot = (ApiResponse.notFound, demoSnapshot) ∧
     deleteLink 10 "zzz" "a1" 3 true demoSnapshot = (ApiResponse.notFound, demoSnapshot) ∧
     clickLink 10 "zzz" "a1" 3 true demoSnapshot = (ApiResponse.notFound, demoSnapshot) ∧
     fsPutLink "zzz" 3 sampleFields fsDemo = (ApiResponse.serverError, fsDemo) ∧
     fsDeleteLink "zzz" 3 fsDemo = (ApiResponse.serverError, fsDemo) ∧
     fsClickLink "zzz" 3 fsDemo = (ApiResponse.serverError, fsDemo)) :=
  ⟨by decide, by decide,
    c4_absent_id_no_mutation 10 "zzz" "a1" 3 sampleFields true demoSnapshot fsDemo
      (by decide) (by decide)⟩

/-- C4 counterexample: in the firestore variant, DELETE on an absent id answers
500, not the 404 the claim prescribes (the state is indeed left unchanged). -/
theorem c4_firestore_answers_500 :
    (fsDeleteLink "missing" 0 { links := [], activities := [] }).1 = ApiResponse.serverError ∧
    (fsDeleteLink "missing" 0 { links := [], activities := [] }).1 ≠ ApiResponse.notFound ∧
    (fsDeleteLink "missing" 0 { links := [], activities := [] }).2 =
      { links := [], activities := [] } := by
  decide

/-- C5 (amended): in the file variants each mutation builds one new snapshot
holding both the link change and exactly one activity of the matching type
with the cap applied, and the single write commits or rejects them together —
on a failed save the persisted snapshot is exactly the old one. In the
firestore variant the link write and the activity write are separate calls
(and no cap is applied on write), so the link change can commit while the
activity append fails. -/
theorem c5_link_and_activity_atomic (cap : Nat) (newId actId lid : String)
    (now : Nat) (f : LinkFields) (s : Snapshot) :
    (postLinks cap newId actId now f false s).2 = s ∧
    (putLink cap lid actId now f false s).2 = s ∧
    (deleteLink cap lid actId now false s).2 = s ∧
    (clickLink cap lid actId now false s).2 = s ∧
    ((postLinks cap newId actId now f true s).2).links = mkNewLink newId now f :: s.links ∧
    ((postLinks cap newId actId now f true s).2).activities =
      capActivities cap (mkActivity actId ActivityType.added f.name now :: s.activities) ∧
    ((putLink cap lid actId now f true s).1 = ApiResponse.notFound ∧
        (putLink cap lid actId now f true s).2 = s ∨
      ((putLink cap lid actId now f true s).2).activities =
        capActivities cap (mkActivity actId ActivityType.edited f.name now :: s.activities)) ∧
    ((deleteLink cap lid actId now true s).1 = ApiResponse.notFound ∧
        (deleteLink cap lid actId now true s).2 = s ∨
      ∃ nm, ((deleteLink cap lid actId now true s).2).activities =
        capActivities cap (mkActivity actId ActivityType.deleted nm now :: s.activities)) ∧
    ((clickLink cap lid actId now true s).1 = ApiResponse.notFound ∧
        (clickLink cap lid actId now true s).2 = s ∨
      ∃ nm, ((clickLink cap lid actId now true s).2).activities =
        capActivities cap (mkActivity actId ActivityType.clicked nm now :: s.activities)) := by
  refine ⟨rfl, ?_, ?_, ?_, rfl, rfl, ?_, ?_, ?_⟩
  · cases hu : updateFirstBy (fun l => l.id == lid) (editLink now f) s.links with
    | none => simp [putLink, hu]
    | some r => simp [putLink, hu]
  · cases hu : removeFirstBy (fun l => l.id == lid) s.links with
    | none => simp [deleteLink, hu]
    | some r => simp [deleteLink, hu]
  · cases hu : updateFirstBy (fun l => l.id == lid) (fun l => { l with clicks := l.clicks + 1 }) s.links with
    | none => simp [clickLink, hu]
    | some r => simp [clickLink, hu]
  · cases hu : updateFirstBy (fun l => l.id == lid) (editLink now f) s.links with
    | none => exact Or.inl (by simp [putLink, hu])
    | some r => exact Or.inr (by simp [putLink, hu])
  · cases hu : removeFirstBy (fun l => l.id == lid) s.links with
    | none => exact Or.inl (by simp [deleteLink, hu])
    | some r => exact Or.inr ⟨r.1.name, by simp [deleteLink, hu]⟩
  · cases hu : updateFirstBy (fun l => l.id == lid) (fun l => { l with clicks := l.clicks + 1 }) s.links with
    | none => exact Or.inl (by simp [clickLink, hu])
    | some r => exact Or.inr ⟨r.1.name, by simp [clickLink, hu]⟩

lemma clickedActs_length (nm : String) (ids : Nat → String) (tms : Nat → Nat) :
    ∀ n, (clickedActs nm ids tms n).length = n := by
  intro n
  induction n with
  | zero => rfl
  | succ n ih => simp [clickedActs, ih]

lemma clickedActs_forall (nm : String) (ids : Nat → String) (tms : Nat → Nat) :
    ∀ n, ∀ a ∈ clickedActs nm ids tms n, a.isClicked = true ∧ a.linkName = nm := by
  intro n
  induction n with
  | zero => intro a ha; simp [clickedActs] at ha
  | succ n ih =>
    intro a ha
    rcases List.mem_cons.mp ha with h | h
    · subst h; exact ⟨rfl, rfl⟩
    · exact ih a h

lemma capActivities_cons_take (c : Nat) (x : Activity) (L : List Activity) :
    capActivities (c + 1) (x :: L.take (c + 1)) = (x :: L).take (c + 1) := by
  by_cases h : L.length ≤ c
  · rw [List.take_of_length_le (by omega)]
    unfold capActivities
    rw [if_neg (by simp only [List.length_cons]; omega)]
    rw [List.take_of_length_le (by simp only [List.length_cons]; omega)]
  · have hT : (L.take (c + 1)).length = c + 1 := by
      rw [List.length_take]; omega
    unfold capActivities
    rw [if_pos (by simp only [List.length_cons, hT]; omega)]
    rw [List.dropLast_eq_take]
    have h2 : (x :: L.take (c + 1)).length - 1 = c + 1 := by
      simp only [List.length_cons, hT]
      omega
    rw [h2, List.take_succ_cons, List.take_succ_cons, List.take_take]
    have h3 : c ⊓ (c + 1) = c := inf_eq_left.mpr (Nat.le_succ c)
    rw [h3]

lemma clickN_closed_form (cap : Nat) (hcap : 0 < cap) (lid : String)
    (ids : Nat → String) (tms : Nat → Nat) (l₀ : Link) (a₀ : Activity) (hid : l₀.id = lid) :
    ∀ n, clickN cap lid ids tms n { links := [l₀], activities := [a₀] } =
      { links := [{ l₀ with clicks := l₀.clicks + n }],
        activities := (clickedActs l₀.name ids tms n ++ [a₀]).take cap } := by
  obtain ⟨c, rfl⟩ : ∃ c, cap = c + 1 := ⟨cap - 1, by omega⟩
  intro n
  induction n with
  | zero =>
    rw [clickN]
    simp only [clickedActs, List.nil_append]
    rw [List.take_of_length_le (by simp)]
    have hl : ({ l₀ with clicks := l₀.clicks + 0 } : Link) = l₀ := by
      rw [Nat.add_zero]
    rw [hl]
  | succ n ih =>
    rw [clickN, ih]
    have hbeq : (({ l₀ with clicks := l₀.clicks + n } : Link).id == lid) = true := by
      simp [hid]
    simp only [clickLink, updateFirstBy, hbeq, if_pos, if_true]
    rw [capActivities_cons_take c _ (clickedActs l₀.name ids tms n ++ [a₀])]
    simp [clickedActs, Nat.add_assoc]

lemma countP_clicked_take (nm : String) (ids : Nat → String) (tms : Nat → Nat)
    (a₀ : Activity) (h₀ : a₀.isClicked = false) (n cap : Nat) :
    ((clickedActs nm ids tms n ++ [a₀]).take cap).countP Activity.isClicked = min n cap := by
  rw [List.take_append_eq_append_take, List.countP_append]
  have h1 : ((clickedActs nm ids tms n).take cap).countP Activity.isClicked
      = ((clickedActs nm ids tms n).take cap).length := by
    rw [List.countP_eq_length]
    intro a ha
    exact ((clickedActs_forall nm ids tms n) a (List.take_subset cap _ ha)).1
  have h2 : (([a₀] : List Activity).take (cap - (clickedActs nm ids tms n).length)).countP
      Activity.isClicked = 0 := by
    cases hm : cap - (clickedActs nm ids tms n).length with
    | zero => rfl
    | succ m => simp [List.take_succ_cons, h₀]
  rw [h1, h2, List.length_take, clickedActs_length]
  omega

/-- C8 (amended): N sequential clicks on a freshly created link (cap-10 file
variant), every save succeeding, leave the link's `clicks` field equal to N;
each click pushes one `clicked` activity referencing the link's name, but the
retention cap keeps only the 10 most recent, so the final activities array
holds min(N, 10) clicked records — exactly N only while N ≤ 10. -/
theorem c8_click_n_times (n : Nat) (lid aid : String) (t0 : Nat) (f : LinkFields)
    (ids : Nat → String) (tms : Nat → Nat) :
    ∃ l : Link,
      (clickN 10 lid ids tms n ((postLinks 10 lid aid t0 f true emptySnapshot).2)).links = [l] ∧
      l.clicks = n ∧ l.id = lid ∧ l.name = f.name ∧
      (clickN 10 lid ids tms n ((postLinks 10 lid aid t0 f true emptySnapshot).2)).activities.countP
        Activity.isClicked = min n 10 ∧
      ∀ a ∈ (clickN 10 lid ids tms n ((postLinks 10 lid aid t0 f true emptySnapshot).2)).activities,
        a.isClicked = true → a.linkName = f.name := by
  have hs0 : (postLinks 10 lid aid t0 f true emptySnapshot).2 =
      { links := [mkNewLink lid t0 f],
        activities := [mkActivity aid ActivityType.added f.name t0] } := rfl
  have hform := clickN_closed_form 10 (by omega) lid ids tms (mkNewLink lid t0 f)
    (mkActivity aid ActivityType.added f.name t0) rfl n
  rw [hs0, hform]
  refine ⟨{ mkNewLink lid t0 f with clicks := (mkNewLink lid t0 f).clicks + n },
    rfl, ?_, rfl, rfl, ?_, ?_⟩
  · simp [mkNewLink]
  · exact countP_clicked_take (mkNewLink lid t0 f).name ids tms
      (mkActivity aid ActivityType.added f.name t0) rfl n 10
  · intro a ha hc
    have hmem : a ∈ clickedActs (mkNewLink lid t0 f).name ids tms n ++
        [mkActivity aid ActivityType.added f.name t0] := List.take_subset 10 _ ha
    rcases List.mem_append.mp hmem with h | h
    · exact (clickedActs_forall _ ids tms n a h).2
    · have hfalse : (mkActivity aid ActivityType.added f.name t0).isClicked = false := rfl
      rw [List.mem_singleton.mp h, hfalse] at hc
      cases hc

/-- C8 counterexample: 11 sequential clicks on a fresh link yield
`clicks = 11`, but only 10 `clicked` activity records survive the retention
cap, not the 11 the claim prescribes. -/
theorem c8_cap_truncates_clicked_records :
    (clickN 10 "L" (fun _ => "a") (fun k => k) 11
        ((postLinks 10 "L" "a0" 0 sampleFields true emptySnapshot).2)).activities.countP
      Activity.isClicked ≠ 11 ∧
    ((clickN 10 "L" (fun _ => "a") (fun k => k) 11
        ((postLinks 10 "L" "a0" 0 sampleFields true emptySnapshot).2)).links.map
      fun l => l.clicks) = [11] := by
  decide

/-- C9: POST /api/links with a successful save answers the new link itself,
carrying the generated id and `clicks: 0`, and the resulting links array is
the new link consed onto the previous array, so GET /api/links returns the
collection with the new link first; when the previous array was in
creation-descending order and the new link's `createdAt` is no older than the
existing ones, the order is preserved. -/
theorem c9_post_then_get_first (cap : Nat) (newId actId : String) (now : Nat)
    (f : LinkFields) (s : Snapshot)
    (hsorted : s.links.Pairwise fun a b => b.createdAt ≤ a.createdAt)
    (hnow : ∀ l ∈ s.links, l.createdAt ≤ now) :
    (postLinks cap newId actId now f true s).1 = ApiResponse.ok (mkNewLink newId now f) ∧
    (mkNewLink newId now f).clicks = 0 ∧
    (mkNewLink newId now f).id = newId ∧
    getLinks (postLinks cap newId actId now f true s).2 = mkNewLink newId now f :: getLinks s ∧
    (getLinks (postLinks cap newId actId now f true s).2).Pairwise
      fun a b => b.createdAt ≤ a.createdAt := by
  refine ⟨rfl, rfl, rfl, rfl, ?_⟩
  exact List.Pairwise.cons (fun b hb => hnow b hb) hsorted

/-- C9 witness: a POST onto the empty snapshot at time 5. -/
theorem c9_post_then_get_first_witness :
    (emptySnapshot.links.Pairwise fun a b => b.createdAt ≤ a.createdAt) ∧
    (∀ l ∈ emptySnapshot.links, l.createdAt ≤ 5) ∧
    ((postLinks 10 "n1" "a1" 5 sampleFields true emptySnapshot).1 =
        ApiResponse.ok (mkNewLink "n1" 5 sampleFields) ∧
      (mkNewLink "n1" 5 sampleFields).clicks = 0 ∧
      (mkNewLink "n1" 5 sampleFields).id = "n1" ∧
      getLinks (postLinks 10 "n1" "a1" 5 sampleFields true emptySnapshot).2 =
        mkNewLink "n1" 5 sampleFields :: getLinks emptySnapshot ∧
      (getLinks (postLinks 10 "n1" "a1" 5 sampleFields true emptySnapshot).2).Pairwise
        fun a b => b.createdAt ≤ a.createdAt) :=
  ⟨List.Pairwise.nil, by simp [emptySnapshot],
    c9_post_then_get_first 10 "n1" "a1" 5 sampleFields emptySnapshot List.Pairwise.nil
      (by simp [emptySnapshot])⟩

/-- C5 counterexample: in the firestore variant the link write succeeds and the
activity write then fails — the caller gets a 500, yet the link document has
been committed with no matching activity document, refuting
committed-together-or-rejected-together. -/
theorem c5_firestore_partial_commit :
    (fsPostLinks "D1" 0 sampleFields true false { links := [], activities := [] }).1 =
      ApiResponse.serverError ∧
    (fsPostLinks "D1" 0 sampleFields true false { links := [], activities := [] }).2.links ≠ [] ∧
    (fsPostLinks "D1" 0 sampleFields true false { links := [], activities := [] }).2.activities = [] := by
  decide

end Droneplus
